import Mathlib

/-!
Verification development for the text-to-cad backend.

The definitions below are a shallow embedding of the Python sources:
`backend/main.py` (rule-based instruction parser and orchestration),
`backend/llm.py` (external AI parser wrapper), `backend/jobs.py`
(async job tracker), and `backend/geometry/model_builder.py`
(build dispatch).  Regular-expression extraction is embedded through a
small backtracking matcher reproducing the semantics of Python
`re.search`: leftmost starting position wins, alternatives are tried in
written order, and quantifiers are greedy.
-/

/-- Length of the maximal prefix of the list whose characters satisfy p. -/
def prefixCount (p : Char → Bool) : List Char → Nat
  | [] => 0
  | c :: t => if p c then prefixCount p t + 1 else 0

/-- Boolean substring test, mirroring the Python expression
`needle in haystack`. -/
def containsSub : List Char → List Char → Bool
  | n, [] => n.isEmpty
  | n, c :: t => n.isPrefixOf (c :: t) || containsSub n t

/-- Mirrors the Python idiom `any(word in text for word in kws)`. -/
def containsAny (kws : List String) (t : List Char) : Bool :=
  kws.any (fun k => containsSub k.data t)

/-- Python whitespace class (the characters `str.strip` removes and
regex `\s` matches, for the ASCII inputs at hand). -/
def isWsPy (c : Char) : Bool :=
  c = ' ' || c = '\t' || c = '\n' || c = '\r' || c = '\x0b' || c = '\x0c'

/-- Python `str.strip`: drop leading and trailing whitespace. -/
def trimChars (l : List Char) : List Char :=
  ((l.dropWhile isWsPy).reverse.dropWhile isWsPy).reverse

/-- Normalisation performed by `parse_cad_instruction`
(`instruction.lower().strip()`). -/
def normText (s : String) : List Char :=
  trimChars (s.data.map Char.toLower)

/-- Lower-casing of a whole string (Python `str.lower`), ASCII as used here. -/
def lowerS (s : String) : String :=
  String.mk (s.data.map Char.toLower)

/-- Abstract syntax of the fragment of Python regexes used by
`parse_cad_instruction`: literals, ordered alternation, sequencing,
greedy option, greedy star/plus over a character class, and the single
capturing group each pattern contains. -/
inductive Rgx where
  | lit : List Char → Rgx
  | alt2 : Rgx → Rgx → Rgx
  | seq2 : Rgx → Rgx → Rgx
  | opt : Rgx → Rgx
  | starCls : (Char → Bool) → Rgx
  | plusCls : (Char → Bool) → Rgx
  | grp : Rgx → Rgx

/-- Combine captures from two sequenced sub-matches; each pattern has a
single group, so at most one side is populated. -/
def mergeCap : Option (List Char) → Option (List Char) → Option (List Char)
  | some c, _ => some c
  | none, c => c

/-- All ways the regex can match a prefix of the input, as pairs of
(remaining input, captured group text), listed in Python backtracking
preference order: earlier alternation branches first, longer greedy
quantifier consumption first. -/
def Rgx.runs : Rgx → List Char → List (List Char × Option (List Char))
  | .lit n, s => if n.isPrefixOf s then [(s.drop n.length, none)] else []
  | .alt2 a b, s => a.runs s ++ b.runs s
  | .seq2 a b, s =>
      (a.runs s).flatMap
        (fun rc => (b.runs rc.1).map (fun rc2 => (rc2.1, mergeCap rc.2 rc2.2)))
  | .opt r, s => r.runs s ++ [(s, none)]
  | .starCls p, s =>
      let m := prefixCount p s
      (List.range (m + 1)).map (fun i => (s.drop (m - i), none))
  | .plusCls p, s =>
      let m := prefixCount p s
      (List.range m).map (fun i => (s.drop (m - i), none))
  | .grp r, s =>
      (r.runs s).map (fun rc => (rc.1, some (s.take (s.length - rc.1.length))))

/-- Python `re.search` returning `match.group(1)`: scan starting
positions left to right; at the first position admitting a match,
return the backtracking-preferred capture. -/
def reSearch (r : Rgx) : List Char → Option (List Char)
  | [] => ((r.runs []).head?).bind (fun rc => rc.2)
  | c :: t =>
      match (r.runs (c :: t)).head? with
      | some rc => rc.2
      | none => reSearch r t

/-- Numeric value of a digit string (`int(...)` on a `[0-9]+` capture). -/
def digitsToNat (cs : List Char) : Nat :=
  cs.foldl (fun a c => 10 * a + (c.toNat - 48)) 0

/-- Value of a decimal capture matching `[0-9]*\.?[0-9]+`
(Python `float(...)`), represented exactly as a rational. -/
def parseDec (cs : List Char) : ℚ :=
  let ip := cs.takeWhile Char.isDigit
  let rest := cs.dropWhile Char.isDigit
  match rest with
  | '.' :: fp => (digitsToNat ip : ℚ) + (digitsToNat fp : ℚ) / ((10 : ℚ) ^ fp.length)
  | _ => (digitsToNat ip : ℚ)

/-- Ordered alternation of a list of regexes (first branch preferred). -/
def altList : List Rgx → Rgx
  | [] => .plusCls (fun _ => false)
  | [r] => r
  | r :: rs => .alt2 r (altList rs)

/-- Sequencing of a list of regexes. -/
def seqList : List Rgx → Rgx
  | [] => .lit []
  | [r] => r
  | r :: rs => .seq2 r (seqList rs)

/-- Literal string regex. -/
def litS (s : String) : Rgx := .lit s.data

/-- The regex fragment for whitespace, matching Python regex `\s*`. -/
def wsStar : Rgx := .starCls isWsPy

/-- Capturing group `([0-9]*\.?[0-9]+)`. -/
def numGrp : Rgx :=
  .grp (seqList [.starCls Char.isDigit, .opt (litS "."), .plusCls Char.isDigit])

/-- Capturing group `([0-9]+)`. -/
def intGrp : Rgx := .grp (.plusCls Char.isDigit)

/-- Optional unit suffix `(?:mm|millimeter|millimeters)?`. -/
def unitOpt : Rgx := .opt (altList [litS "mm", litS "millimeter", litS "millimeters"])

/-- Optional `(?:of\s*)?`. -/
def ofOpt : Rgx := .opt (.seq2 (litS "of") wsStar)

/-- Keyword alternation in written order. -/
def kwAlt (ss : List String) : Rgx := altList (ss.map litS)

/-- First pattern of a cascade whose search succeeds determines the
decimal value; a failed match simply moves on (rule extraction has no
error path). -/
def cascadeDec (pats : List Rgx) (s : List Char) : Option ℚ :=
  match pats with
  | [] => none
  | p :: rest =>
      match reSearch p s with
      | some cap => some (parseDec cap)
      | none => cascadeDec rest s

/-- Integer-valued cascade, for the count patterns. -/
def cascadeNat (pats : List Rgx) (s : List Char) : Option Nat :=
  match pats with
  | [] => none
  | p :: rest =>
      match reSearch p s with
      | some cap => some (digitsToNat cap)
      | none => cascadeNat rest s

/-- The `height_patterns` list of `parse_cad_instruction`. -/
def heightPatterns : List Rgx :=
  [ seqList [kwAlt ["height", "tall", "length", "depth"], wsStar, ofOpt, numGrp, wsStar, unitOpt],
    seqList [numGrp, wsStar, unitOpt, wsStar, kwAlt ["height", "tall", "length", "depth"]],
    seqList [numGrp, wsStar, unitOpt, wsStar, kwAlt ["high", "long", "deep"]] ]

/-- The `diameter_patterns` list of `parse_cad_instruction`. -/
def diameterPatterns : List Rgx :=
  [ seqList [kwAlt ["diameter", "dia", "width", "wide"], wsStar, ofOpt, numGrp, wsStar, unitOpt],
    seqList [numGrp, wsStar, unitOpt, wsStar, kwAlt ["diameter", "dia", "width", "wide"]],
    seqList [numGrp, wsStar, unitOpt, wsStar, kwAlt ["across", "around"]] ]

/-- The `count_patterns` list of `parse_cad_instruction`. -/
def countPatterns : List Rgx :=
  [ seqList [kwAlt ["count", "number", "qty", "quantity"], wsStar, ofOpt, intGrp],
    seqList [intGrp, wsStar, kwAlt ["times", "copies", "instances"]],
    seqList [kwAlt ["make", "create"], wsStar, intGrp],
    seqList [intGrp, wsStar,
      kwAlt ["cylinder", "cylinders", "block", "blocks", "sphere", "spheres",
             "cone", "cones", "hole", "holes", "feature", "features"]] ]

/-- The `angle_patterns` list used for circular patterns. -/
def anglePatterns : List Rgx :=
  [ seqList [numGrp, wsStar, kwAlt ["degree", "degrees", "deg", "°"]],
    seqList [kwAlt ["angle", "rotation"], wsStar, ofOpt, numGrp] ]

/-- Action keyword set tested first (`extrude`). -/
def extrudeKws : List String := ["extrude", "extrusion"]

/-- Action keyword set tested second (`create_hole`). -/
def holeKws : List String := ["hole", "drill", "bore"]

/-- Action keyword set tested third (`fillet`). -/
def filletKws : List String := ["fillet", "round", "radius"]

/-- Action keyword set tested fourth (`pattern`). -/
def patternKws : List String := ["pattern", "array", "repeat"]

/-- Pattern sub-record of `ParsedParameters` (Pydantic `PatternInfo`). -/
structure PatternInfo where
  type : Option String
  count : Option Nat
  angle_deg : Option ℚ
deriving DecidableEq, Repr

/-- Result record of the rule-based parser (Pydantic `ParsedParameters`). -/
structure ParsedParameters where
  action : String
  shape : Option String
  height_mm : Option ℚ
  diameter_mm : Option ℚ
  count : Option Nat
  pattern : Option PatternInfo
deriving DecidableEq, Repr

/-- Embedding of `parse_cad_instruction` from `backend/main.py`:
normalise, classify action and shape by keyword priority, run the
regex cascades for height, diameter and count, and build the pattern
sub-record only when the action is `pattern`. -/
def parse_cad_instruction (instruction : String) : ParsedParameters :=
  let t := normText instruction
  let action :=
    if containsAny extrudeKws t then "extrude"
    else if containsAny holeKws t then "create_hole"
    else if containsAny filletKws t then "fillet"
    else if containsAny patternKws t then "pattern"
    else "create_feature"
  let shape :=
    if containsAny ["cylinder", "cylindrical", "round"] t then some "cylinder"
    else if containsAny ["block", "box", "cube", "rectangular"] t then some "block"
    else if containsAny ["sphere", "ball", "spherical"] t then some "sphere"
    else none
  let height_mm := cascadeDec heightPatterns t
  let diameter_mm := cascadeDec diameterPatterns t
  let count := cascadeNat countPatterns t
  let patternInfo :=
    if action = "pattern" then
      let ptype :=
        if containsAny ["circle", "circular", "round", "around"] t then some "circular"
        else if containsAny ["line", "linear", "row", "straight"] t then some "linear"
        else none
      let pangle :=
        if ptype = some "circular" then cascadeDec anglePatterns t else none
      match ptype with
      | some ty => some ⟨some ty, count, pangle⟩
      | none => none
    else none
  ⟨action, shape, height_mm, diameter_mm, count, patternInfo⟩

/-- JSON values, used for the canonical command produced by
`parse_instruction_internal` and for the external AI response. -/
inductive JVal where
  | null : JVal
  | jbool : Bool → JVal
  | jnum : ℚ → JVal
  | jstr : String → JVal
  | jarr : List JVal → JVal
  | jobj : List (String × JVal) → JVal

/-- Whether the value is a JSON object (`isinstance(x, dict)`). -/
def JVal.isObj : JVal → Bool
  | .jobj _ => true
  | _ => false

/-- Key list of an object, in insertion order (Python dict key order). -/
def JVal.objKeys : JVal → List String
  | .jobj fs => fs.map Prod.fst
  | _ => []

/-- Key membership test (`key in dict`). -/
def JVal.hasField (j : JVal) (k : String) : Bool :=
  match j with
  | .jobj fs => fs.any (fun p => p.1 == k)
  | _ => false

/-- Field lookup (`dict.get(key)` when present). -/
def JVal.getField? : JVal → String → Option JVal
  | .jobj fs, k => List.lookup k fs
  | _, _ => none

/-- Truthiness of the `OPENAI_API_KEY` environment value
(Python `if not api_key`): absent or empty means no credential. -/
def keyTruthy : Option String → Bool
  | none => false
  | some s => !s.isEmpty

/-- The response validation of `parse_instruction_with_ai`
(`backend/llm.py` lines 178-186): the decoded value must be a JSON
object containing an `action` and a `parameters` field. -/
def validateAIResponse (j : JVal) : Except String JVal :=
  if !j.isObj then .error "Response is not a JSON object"
  else if !j.hasField "action" then .error "Missing action field in response"
  else if !j.hasField "parameters" then .error "Missing parameters field in response"
  else .ok j

/-- Embedding of `parse_instruction_with_ai` (`backend/llm.py`).  The
network transport, markdown stripping and `json.loads` decoding are
abstracted into `callResult`: a transport failure, an empty response or
undecodable content arrives as `.error reason` (the function wraps it in
its uniform failure message), and successfully decoded JSON arrives as
`.ok j` and is then validated.  A missing or empty credential fails
before any call is made. -/
def parse_instruction_with_ai (apiKey : Option String)
    (callResult : Except String JVal) : Except String JVal :=
  if keyTruthy apiKey then
    match callResult with
    | .error e => .error ("OpenAI API call failed: " ++ e)
    | .ok j => validateAIResponse j
  else
    .error "OpenAI API key not configured"

/-- JSON encoding of an optional rational (null when absent). -/
def optNumQ : Option ℚ → JVal
  | none => .null
  | some q => .jnum q

/-- JSON encoding of an optional integer count. -/
def optNumN : Option Nat → JVal
  | none => .null
  | some n => .jnum n

/-- JSON encoding of an optional string. -/
def optStrJ : Option String → JVal
  | none => .null
  | some s => .jstr s

/-- JSON encoding of the pattern sub-record
(`parsed_params.pattern.dict() if parsed_params.pattern else None`). -/
def patternJson : Option PatternInfo → JVal
  | none => .null
  | some p => .jobj [("type", optStrJ p.type), ("count", optNumN p.count),
                     ("angle_deg", optNumQ p.angle_deg)]

/-- The normalised dictionary the rule branch of
`parse_instruction_internal` builds (`backend/main.py` lines 469-478),
with its exact key insertion order. -/
def ruleResultJson (p : ParsedParameters) : JVal :=
  .jobj [("action", .jstr p.action),
         ("parameters", .jobj
           [("count", optNumN p.count),
            ("diameter_mm", optNumQ p.diameter_mm),
            ("height_mm", optNumQ p.height_mm),
            ("shape", optStrJ p.shape),
            ("pattern", patternJson p.pattern)])]

/-- Return value of `parse_instruction_internal`: the parsed command
and the tag of the path that produced it. -/
structure InternalResult where
  result : JVal
  source : String

/-- Embedding of `parse_instruction_internal` (`backend/main.py` lines
443-487).  The AI path is attempted only when the flag is set and a
credential is configured; both `LLMParseError` and any unexpected
exception from the attempt reset the result and trigger the rule-based
fallback, so the function itself never fails. -/
def parse_instruction_internal (text : String) (use_ai : Bool)
    (apiKey : Option String) (callResult : Except String JVal) : InternalResult :=
  let aiParsed : Option JVal :=
    if use_ai && keyTruthy apiKey then
      match parse_instruction_with_ai apiKey callResult with
      | .ok j => some j
      | .error _ => none
    else none
  match aiParsed with
  | some j => ⟨j, "ai"⟩
  | none => ⟨ruleResultJson (parse_cad_instruction text), "rule"⟩

/-- Key list of the `parameters` object of a parse result. -/
def paramKeysOf (r : InternalResult) : List String :=
  match r.result.getField? "parameters" with
  | some p => p.objKeys
  | none => []

/-- The geometry builder strategies of `backend/geometry/model_builder.py`. -/
inductive BuildStrategy where
  | extrudedCylinder
  | block
  | plateWithHoles
deriving DecidableEq, Repr

/-- Shape family dispatched to `build_block`. -/
def blockFamily : List String := ["block", "cube", "base_plate"]

/-- Shape normalisation of `dispatch_build`
(`params.get("shape", "").lower() if params.get("shape") else ""`). -/
def shapeNorm : Option String → String
  | none => ""
  | some s => lowerS s

/-- The `"hole" in action.lower()` test of `dispatch_build`. -/
def holeInAction (action : String) : Bool :=
  containsSub "hole".data (lowerS action).data

/-- Embedding of `dispatch_build` (`backend/geometry/model_builder.py`
lines 164-216): an if/elif chain ending in an unconditional default, so
the function is total by construction. -/
def dispatch_build (action : String) (shape : Option String) : BuildStrategy :=
  let sh := shapeNorm shape
  if action = "extrude" ∧ sh = "cylinder" then .extrudedCylinder
  else if action = "extrude" ∧ sh ∈ blockFamily then .block
  else if action ∈ ["create_hole", "pattern", "create_feature"] ∨ holeInAction action = true then
    .plateWithHoles
  else if sh = "cylinder" then .extrudedCylinder
  else if sh ∈ blockFamily then .block
  else .plateWithHoles

/-- First entry of an ordered rule table whose guard holds; the
plate-with-holes strategy is the universal default. -/
def firstHit : List (Bool × BuildStrategy) → BuildStrategy
  | [] => .plateWithHoles
  | (g, st) :: rest => if g then st else firstHit rest

/-- Modelled from the spec: the Build Dispatcher precedence as §4.7
describes it — explicit (action, shape) pairs first, then
hole/pattern/feature actions regardless of shape, then shape-only
matches, then the universal default plate-with-holes strategy — as a
first-match-wins rule table. -/
def dispatchPrecedence (action : String) (shape : Option String) : BuildStrategy :=
  let sh := shapeNorm shape
  firstHit
    [ (decide (action = "extrude" ∧ sh = "cylinder"), .extrudedCylinder),
      (decide (action = "extrude" ∧ sh ∈ blockFamily), .block),
      (decide (action ∈ ["create_hole", "pattern", "create_feature"]) || holeInAction action,
        .plateWithHoles),
      (decide (sh = "cylinder"), .extrudedCylinder),
      (decide (sh ∈ blockFamily), .block) ]

/-- Job status constants of `backend/jobs.py`. -/
inductive JobStatus where
  | queued
  | running
  | succeeded
  | failed
deriving DecidableEq, Repr

/-- Snapshot of a job record after one atomic (lock-protected) update
group of `_run_job`: status, progress and error are always written as a
unit inside a single critical section. -/
structure JobSnap where
  status : JobStatus
  progress : Nat
  error : Option String
deriving DecidableEq, Repr

/-- `PROGRESS_STEPS = 20` in `backend/jobs.py`. -/
def progressSteps : Nat := 20

/-- `progress_increment = 100 // PROGRESS_STEPS`. -/
def progressIncrement : Nat := 100 / progressSteps

/-- The i-th atomic update of `_run_job`: update 0 sets the status to
running; updates 1 through 21 record `min(step * increment, 100)` for
steps 0 through 20; update 22 marks success and forces progress 100. -/
def applyUpdate (i : Nat) (r : JobSnap) : JobSnap :=
  if i = 0 then { r with status := .running }
  else if i ≤ progressSteps + 1 then
    { r with progress := min ((i - 1) * progressIncrement) 100 }
  else { r with status := .succeeded, progress := 100 }

/-- Job state after the first j updates, starting from the queued
record `start_job` registers. -/
def snapsAfter : Nat → JobSnap
  | 0 => ⟨.queued, 0, none⟩
  | j + 1 => applyUpdate j (snapsAfter j)

/-- Trace of the job record over the run of `_run_job`, one snapshot
per atomic update.  `none` is the normal execution (all 23 updates
run); `some (k, msg)` injects an exception after the first k updates,
upon which the except-handler writes the failed status with the message
and leaves progress at its last recorded value. -/
def runJobTrace : Option (Nat × String) → List JobSnap
  | none => (List.range 24).map snapsAfter
  | some (k, msg) =>
      (List.range (k + 1)).map snapsAfter
        ++ [⟨.failed, (snapsAfter k).progress, some msg⟩]

/-- Terminal job states (no further transition occurs from them). -/
def isTerminal : JobStatus → Bool
  | .succeeded => true
  | .failed => true
  | _ => false

/-- Collapse consecutive duplicates, leaving the sequence of distinct
states a trace passes through. -/
def dedupConsec {α : Type} [DecidableEq α] : List α → List α
  | [] => []
  | [a] => [a]
  | a :: b :: t => if a = b then dedupConsec (b :: t) else a :: dedupConsec (b :: t)

/-- Boolean check that a list of numbers never decreases. -/
def nondecreasing : List Nat → Bool
  | [] => true
  | [_] => true
  | a :: b :: t => decide (a ≤ b) && nondecreasing (b :: t)

/-- A job record object as stored on the heap.  The `meta` field holds
the address of the nested metadata dictionary, mirroring Python object
identity: `dict.copy()` duplicates the top-level fields but keeps this
address shared.  Timestamps are omitted; they are immutable values
copied like the other top-level fields. -/
structure HRecord where
  status : JobStatus
  progress : Nat
  error : Option String
  meta : Nat
deriving DecidableEq, Repr

/-- Heap-explicit state of the job tracker: the registry `JOBS` maps a
job id to the address of its record object; record and meta objects
live on their heaps, addressed by index, with allocation by append. -/
structure TrackerState where
  registry : List (String × Nat)
  recHeap : List HRecord
  metaHeap : List (List (String × Int))
deriving Repr

/-- Replace the element at an index, leaving the list unchanged when
the index is out of range (heap store). -/
def listModify {α : Type} (l : List α) (i : Nat) (f : α → α) : List α :=
  match l, i with
  | [], _ => []
  | a :: t, 0 => f a :: t
  | a :: t, j + 1 => a :: listModify t j f

/-- Embedding of `get_job` (`backend/jobs.py` lines 131-151): look the
job up in the registry and return a freshly allocated shallow copy of
its record — a new record object whose `meta` field still holds the
address of the original nested dictionary. -/
def get_job (st : TrackerState) (jobId : String) : Option (Nat × TrackerState) :=
  match List.lookup jobId st.registry with
  | none => none
  | some a =>
      match st.recHeap[a]? with
      | none => none
      | some r =>
          some (st.recHeap.length, { st with recHeap := st.recHeap ++ [r] })

/-- A caller mutating a top-level field of a record object it holds
(e.g. `record["progress"] = 0` on the dict returned by `get_job`). -/
def writeRecField (st : TrackerState) (a : Nat) (f : HRecord → HRecord) : TrackerState :=
  { st with recHeap := listModify st.recHeap a f }

/-- A caller mutating the nested meta dictionary through a record
object it holds (e.g. `record["meta"]["x"] = 1`). -/
def writeMetaThrough (st : TrackerState) (a : Nat)
    (g : List (String × Int) → List (String × Int)) : TrackerState :=
  match st.recHeap[a]? with
  | none => st
  | some r => { st with metaHeap := listModify st.metaHeap r.meta g }

/-- The tracker-owned state of a job as observable through the
registry: the stored record object together with the contents of its
nested meta dictionary. -/
def observeJob (st : TrackerState) (jobId : String) :
    Option (HRecord × Option (List (String × Int))) :=
  (List.lookup jobId st.registry).bind
    (fun a => (st.recHeap[a]?).map (fun r => (r, st.metaHeap[r.meta]?)))

/-- A saved command row (`models.Command`). -/
structure CommandRow where
  id : Nat
  prompt : String
  action : String
  parameters : String
  created_at : Nat
deriving DecidableEq, Repr

/-- Insert a row into a list sorted by `created_at` descending. -/
def insertDesc (r : CommandRow) : List CommandRow → List CommandRow
  | [] => [r]
  | x :: t => if x.created_at ≤ r.created_at then r :: x :: t else x :: insertDesc r t

/-- Rows ordered by `created_at` descending (the
`order_by(Command.created_at.desc())` query). -/
def sortDesc : List CommandRow → List CommandRow
  | [] => []
  | r :: t => insertDesc r (sortDesc t)

/-- Embedding of the `get_commands` endpoint (`backend/main.py` lines
896-906): the limit is clamped to 100 before the query, which returns
the newest rows first; the requested limit is modelled as the
non-negative values the route accepts. -/
def get_commands (limit : Nat) (db : List CommandRow) : List CommandRow :=
  let lim := if limit > 100 then 100 else limit
  (sortDesc db).take lim

/-- C3 counterexample: rule-based parsing of
"create 4 holes in a circular pattern" does not produce the claimed
pattern sub-record {type: circular, count: 4, angle_deg: null} — the
hole keyword wins the action priority, and pattern sub-extraction only
runs when the action is `pattern`, so the pattern field is null. -/
theorem circular_holes_pattern_cex :
    ¬ ((parse_cad_instruction "create 4 holes in a circular pattern").pattern
        = some ⟨some "circular", some 4, none⟩) := by
  decide

/-- C3 (amended): rule-based parsing of
"create 4 holes in a circular pattern" yields action `create_hole`
(the hole keywords precede the pattern keywords in the priority
order), count 4, and a null pattern sub-record, since pattern
sub-extraction runs only when the classified action is `pattern`. -/
theorem circular_holes_parse :
    parse_cad_instruction "create 4 holes in a circular pattern"
      = ⟨"create_hole", none, none, none, some 4, none⟩ := by
  decide

/-- C4 counterexample: rule-based parsing of "create a 5mm hole" does
not extract `diameter_mm = 5.0` — every diameter pattern requires one
of the keywords diameter, dia, width, wide, across or around, and none
occurs in the sentence. -/
theorem five_mm_hole_diameter_cex :
    ¬ ((parse_cad_instruction "create a 5mm hole").diameter_mm = some 5) := by
  decide

/-- C4 (amended): rule-based parsing of "create a 5mm hole" yields
action `create_hole` with count and pattern null as claimed, but with
`diameter_mm` null rather than 5.0, because the diameter cascade only
fires next to an explicit diameter keyword. -/
theorem five_mm_hole_parse :
    parse_cad_instruction "create a 5mm hole"
      = ⟨"create_hole", none, none, none, none, none⟩ := by
  decide

/-- C8: evaluating the rule-based extractor at the claimed input shows
the bug.  For "create a cylinder 25mm diameter 15mm tall" the first
diameter pattern (keyword-before-number) matches "diameter 15mm" and
returns 15.0 instead of the intended 25.0; for the sentence with the
two dimension phrases swapped the first height pattern matches
"tall 25mm" and returns 25.0, so the extracted pair is order-dependent,
contradicting the repository's own fix tests in
`backend/test_parsing_fix.py`, which expect 25.0/15.0 for both orders. -/
theorem dimension_extraction_bug :
    (parse_cad_instruction "create a cylinder 25mm diameter 15mm tall").diameter_mm = some 15
    ∧ (parse_cad_instruction "create a cylinder 25mm diameter 15mm tall").height_mm = some 15
    ∧ (parse_cad_instruction "create a cylinder 15mm tall 25mm diameter").diameter_mm = some 25
    ∧ (parse_cad_instruction "create a cylinder 15mm tall 25mm diameter").height_mm = some 25 := by
  refine ⟨?_, ?_, ?_, ?_⟩ <;> decide

/-- C5: the action classifier tests the keyword sets in the fixed
priority order extrude, create_hole, fillet, pattern, with the first
match winning and `create_feature` as the default; in particular any
instruction containing an extrude keyword — also one that contains a
hole keyword as well — classifies as `extrude`. -/
theorem action_priority (s : String) :
    (containsAny extrudeKws (normText s) = true →
      (parse_cad_instruction s).action = "extrude")
    ∧ (containsAny extrudeKws (normText s) = false →
        containsAny holeKws (normText s) = true →
      (parse_cad_instruction s).action = "create_hole")
    ∧ (containsAny extrudeKws (normText s) = false →
        containsAny holeKws (normText s) = false →
        containsAny filletKws (normText s) = true →
      (parse_cad_instruction s).action = "fillet")
    ∧ (containsAny extrudeKws (normText s) = false →
        containsAny holeKws (normText s) = false →
        containsAny filletKws (normText s) = false →
        containsAny patternKws (normText s) = true →
      (parse_cad_instruction s).action = "pattern")
    ∧ (containsAny extrudeKws (normText s) = false →
        containsAny holeKws (normText s) = false →
        containsAny filletKws (normText s) = false →
        containsAny patternKws (normText s) = false →
      (parse_cad_instruction s).action = "create_feature") := by
  refine ⟨?_, ?_, ?_, ?_, ?_⟩ <;>
    · intros
      simp only [parse_cad_instruction]
      simp_all

/-- C5 witness: concrete instructions exercising the priority order,
including one containing both an extrude and a hole keyword. -/
theorem action_priority_witness :
    (parse_cad_instruction "extrude a hole").action = "extrude"
    ∧ (parse_cad_instruction "drill a hole").action = "create_hole" :=
  ⟨(action_priority "extrude a hole").1 (by decide),
   (action_priority "drill a hole").2.1 (by decide) (by decide)⟩

/-- C1: with the external-parser flag set, whenever the external AI
parser fails for any reason — missing or empty credential, transport
error, empty or undecodable response, or a response missing the action
or parameters field — `parse_instruction_internal` still returns the
rule-based normalised command with source `rule`: the failure is never
propagated and no partially-filled AI result is returned. -/
theorem ai_failure_falls_back (text : String) (apiKey : Option String)
    (callResult : Except String JVal) (e : String)
    (h : parse_instruction_with_ai apiKey callResult = .error e) :
    parse_instruction_internal text true apiKey callResult
      = ⟨ruleResultJson (parse_cad_instruction text), "rule"⟩ := by
  unfold parse_instruction_internal
  cases hk : keyTruthy apiKey with
  | false => simp [hk]
  | true => simp [hk, h]

/-- C1 witness: a concrete transport failure with a configured key
falls back to the rule path. -/
theorem ai_failure_falls_back_witness :
    (parse_instruction_internal "drill a hole" true (some "sk-test")
        (.error "connection timeout")).source = "rule" :=
  congrArg InternalResult.source
    (ai_failure_falls_back "drill a hole" (some "sk-test")
      (.error "connection timeout")
      "OpenAI API call failed: connection timeout" rfl)

/-- C2 counterexample: the parameter key set is not identical across
parsing paths.  The external response below carries an empty
parameters object; it passes the AI-path validation (which only checks
that the action and parameters fields exist), so the AI path returns an
empty key set while the rule path returns the five canonical keys for
the same instruction. -/
theorem param_keyset_not_path_invariant :
    paramKeysOf (parse_instruction_internal "create a 5mm hole" true (some "sk-test")
        (.ok (.jobj [("action", .jstr "create_hole"), ("parameters", .jobj [])])))
      ≠ paramKeysOf (parse_instruction_internal "create a 5mm hole" false (some "sk-test")
        (.ok (.jobj [("action", .jstr "create_hole"), ("parameters", .jobj [])]))) := by
  decide

/-- C2 (amended): the rule-based path always produces the fixed
parameter key set [count, diameter_mm, height_mm, shape, pattern],
while the AI path returns the external parser's JSON verbatim after
checking only that the action and parameters fields exist — so the key
set is guaranteed only for the rule path, not across both paths. -/
theorem param_keyset_by_path (text : String) (use_ai : Bool)
    (apiKey : Option String) (callResult : Except String JVal) :
    ((parse_instruction_internal text use_ai apiKey callResult).source = "rule" →
      paramKeysOf (parse_instruction_internal text use_ai apiKey callResult)
        = ["count", "diameter_mm", "height_mm", "shape", "pattern"])
    ∧ ((parse_instruction_internal text use_ai apiKey callResult).source = "ai" →
      ∃ j, parse_instruction_with_ai apiKey callResult = .ok j
        ∧ (parse_instruction_internal text use_ai apiKey callResult).result = j) := by
  unfold parse_instruction_internal
  cases hc : use_ai && keyTruthy apiKey with
  | false =>
      simp [hc]
      rfl
  | true =>
      cases hai : parse_instruction_with_ai apiKey callResult with
      | error e =>
          simp [hc, hai]
          rfl
      | ok j =>
          simp [hc, hai]

/-- C2 amended-claim witness: with the flag off the source is the rule
path and the key set is the canonical one. -/
theorem param_keyset_by_path_witness :
    paramKeysOf (parse_instruction_internal "create a 5mm hole" false none
        (.error "unused"))
      = ["count", "diameter_mm", "height_mm", "shape", "pattern"] :=
  (param_keyset_by_path "create a 5mm hole" false none (.error "unused")).1 rfl

/-- C6: build dispatch is total and follows the fixed precedence.  For
every (action, shape) combination — including absent or unknown shape —
`dispatch_build` returns exactly the strategy selected by the spec's
first-match-wins precedence table (explicit pairs, then
hole/pattern/feature actions, then shape-only matches, then the
universal plate-with-holes default); in particular it is a total
function and never fails to produce a strategy. -/
theorem dispatch_total_precedence (action : String) (shape : Option String) :
    dispatch_build action shape = dispatchPrecedence action shape := by
  unfold dispatch_build dispatchPrecedence firstHit
  by_cases h1 : action = "extrude" ∧ shapeNorm shape = "cylinder" <;>
    by_cases h2 : action = "extrude" ∧ shapeNorm shape ∈ blockFamily <;>
      by_cases h3 : action ∈ ["create_hole", "pattern", "create_feature"]
          ∨ holeInAction action = true <;>
        by_cases h4 : shapeNorm shape = "cylinder" <;>
          by_cases h5 : shapeNorm shape ∈ blockFamily <;>
            simp_all [firstHit]

/-- C10: the command-history listing clamps the requested limit to 100
before querying, so it never returns more than 100 records regardless
of the requested limit. -/
theorem commands_limit_clamped (limit : Nat) (db : List CommandRow) :
    (get_commands limit db).length ≤ 100
    ∧ (limit > 100 → get_commands limit db = (sortDesc db).take 100) := by
  constructor
  · unfold get_commands
    by_cases h : limit > 100
    · simp [h, List.length_take]
    · simp [h, List.length_take]
      omega
  · intro h
    simp [get_commands, h]

/-- C10 witness: a request for 150 records over a three-row store is
clamped and returns at most 100 rows. -/
theorem commands_limit_clamped_witness :
    (get_commands 150
        [⟨1, "a", "extrude", "x", 10⟩, ⟨2, "b", "fillet", "y", 20⟩,
         ⟨3, "c", "pattern", "z", 30⟩]).length ≤ 100
    ∧ get_commands 150
        [⟨1, "a", "extrude", "x", 10⟩, ⟨2, "b", "fillet", "y", 20⟩,
         ⟨3, "c", "pattern", "z", 30⟩]
      = (sortDesc
          [⟨1, "a", "extrude", "x", 10⟩, ⟨2, "b", "fillet", "y", 20⟩,
           ⟨3, "c", "pattern", "z", 30⟩]).take 100 :=
  ⟨(commands_limit_clamped 150 _).1, (commands_limit_clamped 150 _).2 (by decide)⟩

/-- C7: under normal execution the job trace passes through exactly
queued, running, succeeded with progress nondecreasing and ending at
exactly 100; when the worker loop raises after its k-th atomic update
(any point from just after the running transition up to just before
the success write), the trace instead ends in failed with the error
message recorded, progress frozen at the last successfully recorded
value, and no terminal state anywhere before the final record. -/
theorem job_lifecycle (k : Nat) (msg : String) (hk1 : 1 ≤ k) (hk2 : k ≤ 22) :
    (dedupConsec ((runJobTrace none).map JobSnap.status)
        = [.queued, .running, .succeeded]
      ∧ nondecreasing ((runJobTrace none).map JobSnap.progress) = true
      ∧ ((runJobTrace none).map JobSnap.progress).getLast? = some 100
      ∧ ((runJobTrace none).dropLast.all (fun r => !isTerminal r.status)) = true)
    ∧ (dedupConsec ((runJobTrace (some (k, msg))).map JobSnap.status)
        = [.queued, .running, .failed]
      ∧ nondecreasing ((runJobTrace (some (k, msg))).map JobSnap.progress) = true
      ∧ ((runJobTrace (some (k, msg))).map JobSnap.error).getLast? = some (some msg)
      ∧ ((runJobTrace (some (k, msg))).map JobSnap.progress).getLast?
          = (((runJobTrace (some (k, msg))).dropLast).map JobSnap.progress).getLast?
      ∧ ((runJobTrace (some (k, msg))).dropLast.all
          (fun r => !isTerminal r.status)) = true) := by
  refine ⟨⟨by decide, by decide, by decide, by decide⟩, ?_⟩
  interval_cases k <;>
    exact ⟨rfl, rfl, rfl, rfl, rfl⟩

/-- C7 witness: a failure injected after the fifth atomic update. -/
theorem job_lifecycle_witness :
    dedupConsec ((runJobTrace (some (5, "boom"))).map JobSnap.status)
      = [.queued, .running, .failed]
    ∧ ((runJobTrace (some (5, "boom"))).map JobSnap.error).getLast? = some (some "boom") :=
  ⟨(job_lifecycle 5 "boom" (by decide) (by decide)).2.1,
   (job_lifecycle 5 "boom" (by decide) (by decide)).2.2.2.1⟩

/-- Writing one heap cell leaves every other cell unchanged. -/
theorem listModify_getElem_ne {α : Type} (l : List α) (i j : Nat) (f : α → α)
    (h : j ≠ i) : (listModify l i f)[j]? = l[j]? := by
  induction l generalizing i j with
  | nil => simp [listModify]
  | cons x t ih =>
      cases i with
      | zero =>
          cases j with
          | zero => exact absurd rfl h
          | succ j' => simp [listModify]
      | succ i' =>
          cases j with
          | zero => simp [listModify]
          | succ j' =>
              simp only [listModify, List.getElem?_cons_succ]
              exact ih i' j' (by omega)

/-- C9 (amended): `get_job` allocates a fresh shallow copy, so mutating
any top-level field of the returned record changes neither the record
stored at the registry's address nor the registry or the meta heap;
the nested meta dictionary, however, remains shared (see the
counterexample). -/
theorem get_job_toplevel_copy_frame (st : TrackerState) (jobId : String)
    (addr : Nat) (st' : TrackerState) (a : Nat) (f : HRecord → HRecord)
    (h : get_job st jobId = some (addr, st'))
    (ha : List.lookup jobId st.registry = some a)
    (hlt : a < st.recHeap.length) :
    (writeRecField st' addr f).recHeap[a]? = st.recHeap[a]?
    ∧ (writeRecField st' addr f).registry = st.registry
    ∧ (writeRecField st' addr f).metaHeap = st.metaHeap := by
  unfold get_job at h
  simp only [ha] at h
  cases hr : st.recHeap[a]? with
  | none => simp [hr] at h
  | some r =>
      simp only [hr, Option.some.injEq, Prod.mk.injEq] at h
      obtain ⟨haddr, hst⟩ := h
      subst haddr hst
      refine ⟨?_, rfl, rfl⟩
      rw [writeRecField]
      simp only
      rw [listModify_getElem_ne _ _ _ _ (by omega)]
      simp [List.getElem?_append, hlt]
      rw [List.getElem?_eq_getElem hlt] at hr
      exact Option.some.inj hr

/-- A one-job tracker state used to exercise `get_job`: job `job-1` is
stored at record address 0 and its meta dictionary at meta address 0. -/
def demoTracker : TrackerState :=
  ⟨[("job-1", 0)], [⟨.running, 40, none, 0⟩], [[("command_id", 7)]]⟩

/-- The state after `get_job demoTracker "job-1"`: the shallow copy
lives at record address 1 and shares meta address 0. -/
def demoTrackerCopy : TrackerState :=
  ⟨[("job-1", 0)], [⟨.running, 40, none, 0⟩, ⟨.running, 40, none, 0⟩],
   [[("command_id", 7)]]⟩

/-- C9 witness: mutating a top-level field of the returned copy leaves
the registry's stored record untouched. -/
theorem get_job_toplevel_copy_frame_witness :
    (writeRecField demoTrackerCopy 1 (fun r => { r with progress := 0 })).recHeap[0]?
      = demoTracker.recHeap[0]? :=
  (get_job_toplevel_copy_frame demoTracker "job-1" 1 demoTrackerCopy 0
    (fun r => { r with progress := 0 }) rfl rfl (by decide)).1

/-- C9 counterexample: the copy is shallow, so the claim that mutating
the record returned by `get_job` never changes the tracker's stored
state is false — writing through the returned copy's nested meta
dictionary (record address 1) changes what the tracker reports for the
job still registered at record address 0. -/
theorem get_job_shallow_copy_meta_cex :
    get_job demoTracker "job-1" = some (1, demoTrackerCopy)
    ∧ observeJob (writeMetaThrough demoTrackerCopy 1 (fun _ => [("command_id", 99)])) "job-1"
        ≠ observeJob demoTrackerCopy "job-1" :=
  ⟨rfl, by decide⟩
